import Mathlib

/-!
Verification of the XQA JIT nvrtc wrapper
(cpp/tensorrt_llm/kernels/decoderMaskedMultiheadAttention/decoderXQAImplJIT/
nvrtcWrapper/src/nvrtcWrapper.cpp).

The development shallowly embeds the flag-derivation and compilation-control
logic of the wrapper.  Machine integers (`unsigned int` / `uint32_t`) are
modelled as `Nat`; the only arithmetic operation in the source that can
overflow is the `uint32_t` multiplication inside the M-tile-size lambda,
which is modelled with an explicit reduction modulo `2 ^ 32`.  The
process-wide error string `gErrorString` is modelled by explicit state
passing.  Calls into the external NVRTC / nvPTXCompiler libraries are
modelled as succeeding; their failure paths only propagate
`TLLM_XQA_JIT_INTERNAL_ERROR` and never touch the data this development
reasons about.
-/

/-- Data_type from tensorrt_llm/kernels/multiHeadAttentionCommon.h (the
constructors actually distinguished by the wrapper, plus the remaining
members of the enum that all fall into the `else` branches). -/
inductive Data_type where
  | DATA_TYPE_FP32
  | DATA_TYPE_FP16
  | DATA_TYPE_INT8
  | DATA_TYPE_INT32
  | DATA_TYPE_BF16
  | DATA_TYPE_E4M3
  | DATA_TYPE_E5M2
deriving DecidableEq, Repr

/-- tllmXqaJitKernelType from nvrtcWrapper.h (values used by the .cpp). -/
inductive tllmXqaJitKernelType where
  | TLLM_XQA_JIT_HMMA
  | TLLM_XQA_JIT_QGMMA
  | TLLM_XQA_JIT_MLA
deriving DecidableEq, Repr

/-- tllmXqaJitStatus values used by the .cpp. -/
inductive tllmXqaJitStatus where
  | TLLM_XQA_JIT_SUCCESS
  | TLLM_XQA_JIT_INVALID_INPUT
  | TLLM_XQA_JIT_INTERNAL_ERROR
deriving DecidableEq, Repr

/-- tllmXqaJitContext: the configuration record read by the wrapper.
Unsigned fields are modelled as `Nat`, `int sm` as `Int`, and the
`tllmXqaJitRopeStyle` enum by its integer encoding. -/
structure tllmXqaJitContext where
  head_size : Nat
  num_q_heads : Nat
  num_kv_heads : Nat
  beam_width : Nat
  q_seq_len : Nat
  multi_query_tokens : Bool
  paged_kv_cache : Bool
  tokens_per_block : Nat
  data_type : Data_type
  kv_cache_data_type : Data_type
  sm : Int
  kernel_type : tllmXqaJitKernelType
  fp8_output : Bool
  use_input_kv : Bool
  rope_style : Nat
deriving DecidableEq, Repr

/-- getMacroFlag (nvrtcWrapper.cpp line 81): "-D" + name + "=" + value. -/
def getMacroFlag (name value : String) : String :=
  "-D" ++ name ++ "=" ++ value

/-- getSMFlag (nvrtcWrapper.cpp lines 86-94). -/
def getSMFlag (SM : Int) : String :=
  let smStr : String := toString SM
  let smStr : String := if SM = 90 ∨ SM = 120 ∨ SM = 121 then smStr ++ "a" else smStr
  "-arch=sm_" ++ smStr

/-- getPTXSMFlag (nvrtcWrapper.cpp lines 96-110). -/
def getPTXSMFlag (SM : Int) : String :=
  if SM = 120 ∨ SM = 121 then "-arch=compute_89"
  else
    let smStr : String := toString SM
    let smStr : String := if SM = 90 then smStr ++ "a" else smStr
    "-arch=compute_" ++ smStr

/-- The M-tile-size lambda inside getMacroFlags (nvrtcWrapper.cpp lines
134-146).  `num_q_heads_over_kv` is `num_q_heads / num_kv_heads`; the
`uint32_t` product `q_seq_len * num_q_heads_over_kv` is reduced modulo
`2 ^ 32`. -/
def m_tilesize (ctx : tllmXqaJitContext) : Nat :=
  if ¬ctx.multi_query_tokens then ctx.num_q_heads / ctx.num_kv_heads
  else if ctx.kernel_type = .TLLM_XQA_JIT_QGMMA then 64
  else
    let m : Nat := (ctx.q_seq_len * (ctx.num_q_heads / ctx.num_kv_heads)) % 2 ^ 32
    if m < 16 then 16 else 32

/-- The error message built at nvrtcWrapper.cpp lines 122-123. -/
def headsErrMsg (ctx : tllmXqaJitContext) : String :=
  "num_q_heads (" ++ toString ctx.num_q_heads ++ ") must be multiples of num_kv_heads ("
    ++ toString ctx.num_kv_heads ++ ")."

/-- The error message at nvrtcWrapper.cpp lines 163-165. -/
def dtypeErrMsg : String :=
  "data_type must be DATA_TYPE_FP16 or DATA_TYPE_BF16 for non-MLA kernels and DATA_TYPE_E4M3 for the MLA kernel"

/-- The error message at nvrtcWrapper.cpp line 188. -/
def kvFp16ErrMsg : String :=
  "kv_cache_data_type must be DATA_TYPE_FP16 when data_type is DATA_TYPE_FP16"

/-- The error message at nvrtcWrapper.cpp line 196. -/
def kvBf16ErrMsg : String :=
  "kv_cache_data_type must be DATA_TYPE_BF16 when data_type is not DATA_TYPE_FP16"

/-- The SPEC_DEC entry (nvrtcWrapper.cpp lines 129-132). -/
def specDecMacros (ctx : tllmXqaJitContext) : List (String × String) :=
  if ctx.multi_query_tokens then [("SPEC_DEC", "1")] else []

/-- The data-type entries (nvrtcWrapper.cpp lines 147-156); DATA_TYPE_E4M3
adds no entry. -/
def dtypeMacros (ctx : tllmXqaJitContext) : List (String × String) :=
  match ctx.data_type with
  | .DATA_TYPE_FP16 => [("INPUT_FP16", "1"), ("DTYPE", "__half")]
  | .DATA_TYPE_BF16 => [("INPUT_FP16", "0"), ("DTYPE", "__nv_bfloat16")]
  | _ => []

/-- The CACHE_ELEM_ENUM value assigned in the branch structure of
nvrtcWrapper.cpp lines 174-201 (only reached when the pairing check of the
final `else` branch passes). -/
def cacheElemEnumVal (ctx : tllmXqaJitContext) : String :=
  if ctx.kv_cache_data_type = .DATA_TYPE_INT8 then "1"
  else if ctx.kv_cache_data_type = .DATA_TYPE_E4M3 then "2"
  else "0"

/-- The full macro set assembled by getMacroFlags (nvrtcWrapper.cpp lines
129-218), listed in source assignment order.  The source stores these in a
`std::unordered_map` whose iteration order is unspecified (all keys are
distinct, each assigned once); every property proved below is invariant
under permutation of this list. -/
def macroList (ctx : tllmXqaJitContext) : List (String × String) :=
  specDecMacros ctx ++ dtypeMacros ctx ++
  [("GENERATE_CUBIN", "1"),
   ("NDEBUG", "1"),
   ("HEAD_ELEMS", toString ctx.head_size),
   ("BEAM_WIDTH", toString ctx.beam_width),
   ("CACHE_ELEM_ENUM", cacheElemEnumVal ctx),
   ("TOKENS_PER_PAGE", if ctx.paged_kv_cache then toString ctx.tokens_per_block else "0"),
   ("HEAD_GRP_SIZE", toString (ctx.num_q_heads / ctx.num_kv_heads)),
   ("M_TILESIZE", toString (m_tilesize ctx)),
   ("USE_CUSTOM_BARRIER", "1"),
   ("SLIDING_WINDOW", if ctx.multi_query_tokens then "0" else "1"),
   ("LOW_PREC_OUTPUT", if ctx.fp8_output then "1" else "0"),
   ("USE_INPUT_KV", if ctx.use_input_kv then "1" else "0"),
   ("ROPE_STYLE", toString ctx.rope_style),
   ("__FORCE_INCLUDE_CUDA_FP16_HPP_FROM_FP16_H__", "1"),
   ("__FORCE_INCLUDE_CUDA_BF16_HPP_FROM_BF16_H__", "1")]

/-- Outcome of getMacroFlags: success with the macro set, a failing status
with the message passed to setErrorString, or the process abort caused by
the TLLM_CHECK assertion at nvrtcWrapper.cpp line 159.  On failure the
output vector is untouched (the source pushes flags only after every check
has passed), which is reflected by the failure constructors carrying no
macros. -/
inductive MacroFlagsResult where
  | ok (macros : List (String × String))
  | fail (status : tllmXqaJitStatus) (msg : String)
  | assertFail
deriving DecidableEq, Repr

/-- The kv-cache-type branch structure of getMacroFlags (nvrtcWrapper.cpp
lines 174-201) followed by the final assembly. -/
def cacheStage (ctx : tllmXqaJitContext) : MacroFlagsResult :=
  if ctx.kv_cache_data_type = .DATA_TYPE_INT8 then .ok (macroList ctx)
  else if ctx.kv_cache_data_type = .DATA_TYPE_E4M3 then .ok (macroList ctx)
  else if ctx.data_type = .DATA_TYPE_FP16 then
    if ctx.kv_cache_data_type ≠ .DATA_TYPE_FP16 then
      .fail .TLLM_XQA_JIT_INVALID_INPUT kvFp16ErrMsg
    else .ok (macroList ctx)
  else
    if ctx.kv_cache_data_type ≠ .DATA_TYPE_BF16 then
      .fail .TLLM_XQA_JIT_INVALID_INPUT kvBf16ErrMsg
    else .ok (macroList ctx)

/-- getMacroFlags (nvrtcWrapper.cpp lines 112-236), with the process-wide
error string factored out (see getMacroFlags below): the head-count check,
then the data-type check, then the cache-type check, then assembly. -/
def getMacroFlagsCore (ctx : tllmXqaJitContext) : MacroFlagsResult :=
  if ctx.num_q_heads % ctx.num_kv_heads ≠ 0 then
    .fail .TLLM_XQA_JIT_INVALID_INPUT (headsErrMsg ctx)
  else match ctx.data_type with
  | .DATA_TYPE_FP16 => cacheStage ctx
  | .DATA_TYPE_BF16 => cacheStage ctx
  | .DATA_TYPE_E4M3 =>
      if ctx.kernel_type = .TLLM_XQA_JIT_MLA then cacheStage ctx else .assertFail
  | _ => .fail .TLLM_XQA_JIT_INVALID_INPUT dtypeErrMsg

/-- The flag strings pushed into the output vector (nvrtcWrapper.cpp lines
220-223). -/
def macroFlags (ms : List (String × String)) : List String :=
  ms.map fun p => getMacroFlag p.1 p.2

/-- getMacroFlags together with its effect on the process-wide gErrorString:
the pair is (result, gErrorString after the call).  Failure overwrites the
string with the new message (setErrorString, lines 76-79); success and the
assertion abort leave it unchanged. -/
def getMacroFlags (ctx : tllmXqaJitContext) (gErr : String) : MacroFlagsResult × String :=
  match getMacroFlagsCore ctx with
  | .ok ms => (.ok ms, gErr)
  | .fail st msg => (.fail st msg, msg)
  | .assertFail => (.assertFail, gErr)

/-- Outcome of the build-option assemblers, mirroring MacroFlagsResult. -/
inductive BuildOptionsResult where
  | ok (options : List String)
  | fail (status : tllmXqaJitStatus) (msg : String)
  | assertFail
deriving DecidableEq, Repr

/-- getBuildOptions (nvrtcWrapper.cpp lines 238-257): common flags, the
final-architecture flag, then the macro flags. -/
def getBuildOptions (ctx : tllmXqaJitContext) : BuildOptionsResult :=
  match getMacroFlagsCore ctx with
  | .ok ms =>
      .ok (["-dw", "--use_fast_math", "-default-device", getSMFlag ctx.sm] ++ macroFlags ms)
  | .fail st msg => .fail st msg
  | .assertFail => .assertFail

/-- getBuildOptionsPTX (nvrtcWrapper.cpp lines 259-278): same, but with the
PTX-stage architecture flag. -/
def getBuildOptionsPTX (ctx : tllmXqaJitContext) : BuildOptionsResult :=
  match getMacroFlagsCore ctx with
  | .ok ms =>
      .ok (["-dw", "--use_fast_math", "-default-device", getPTXSMFlag ctx.sm] ++ macroFlags ms)
  | .fail st msg => .fail st msg
  | .assertFail => .assertFail

/-- _tllmXqaJitProgram (nvrtcWrapper.cpp lines 62-69).  The nvrtcProgram
handle is external state and is not modelled; cubin_data and
use_stored_cubin are the fields the claims are about. -/
structure _tllmXqaJitProgram where
  context : tllmXqaJitContext
  cubin_data : List UInt8
  use_stored_cubin : Bool
deriving DecidableEq, Repr

/-- createProgram (nvrtcWrapper.cpp lines 280-300): a fresh unit with the
default member initializers of _tllmXqaJitProgram (empty cubin_data,
use_stored_cubin = false).  The nvrtc program registration is external and
modelled as succeeding. -/
def createProgram (ctx : tllmXqaJitContext) : _tllmXqaJitProgram :=
  { context := ctx, cubin_data := [], use_stored_cubin := false }

/-- The two-stage condition computed at nvrtcWrapper.cpp lines 304-305. -/
def needsTwoStageCompilation (ctx : tllmXqaJitContext) : Bool :=
  (ctx.sm == 120 || ctx.sm == 121) && (ctx.kernel_type == .TLLM_XQA_JIT_HMMA)

/-- The option list passed to nvPTXCompilerCompile in the second stage
(nvrtcWrapper.cpp line 350). -/
def ptx_compile_options : List String := ["--gpu-name=sm_120f"]

/-- Which compiler invocations compileProgram performed, with the option
lists it passed to them. -/
inductive CompileTrace where
  | twoStage (stage1Options stage2Options : List String)
  | singleStage (options : List String)
deriving DecidableEq, Repr

/-- Outcome of compileProgram: success with the mutated program unit and the
invocation trace, a propagated failure, or the assertion abort. -/
inductive CompileResult where
  | ok (prog : _tllmXqaJitProgram) (trace : CompileTrace) (gErr : String)
  | fail (status : tllmXqaJitStatus) (gErr : String)
  | assertFail
deriving DecidableEq, Repr

/-- compileProgram (nvrtcWrapper.cpp lines 302-393).  `nvptxCubin` stands for
the cubin bytes produced by the external nvPTXCompiler; the external
NVRTC/nvPTXCompiler calls are modelled as succeeding (their failure paths
return TLLM_XQA_JIT_INTERNAL_ERROR before prog->use_stored_cubin is ever
written).  On the two-stage path the unit stores the second-stage cubin and
marks it authoritative; on the single-stage path the unit is not mutated. -/
def compileProgram (nvptxCubin : List UInt8) (prog : _tllmXqaJitProgram)
    (gErr : String) : CompileResult :=
  if needsTwoStageCompilation prog.context then
    match getBuildOptionsPTX prog.context with
    | .ok opts =>
        .ok { prog with cubin_data := nvptxCubin, use_stored_cubin := true }
          (.twoStage opts ptx_compile_options) gErr
    | .fail st msg => .fail st msg
    | .assertFail => .assertFail
  else
    match getBuildOptions prog.context with
    | .ok opts => .ok prog (.singleStage opts) gErr
    | .fail st msg => .fail st msg
    | .assertFail => .assertFail

/-- Initial value of the process-wide gErrorString (nvrtcWrapper.cpp line
74): default-constructed, empty. -/
def gErrorStringInit : String := ""

/-- tllmXqaJitGetLastErrorStringSize (nvrtcWrapper.cpp lines 444-447). -/
def tllmXqaJitGetLastErrorStringSize (gErr : String) : Nat :=
  gErr.length + 1

/-- tllmXqaJitGetLastErrorString (nvrtcWrapper.cpp lines 449-456): a no-op
when the string is empty, otherwise strcpy of the string plus the NUL
terminator into the front of the caller buffer (bytes past length + 1 are
untouched). -/
def tllmXqaJitGetLastErrorString (gErr : String) (output : List Char) : List Char :=
  if gErr.isEmpty then output
  else (gErr.data ++ [Char.ofNat 0]) ++ output.drop (gErr.length + 1)

/-- A flag string begins with the given marker (used to recognise flags of
the form -DNAME=value). -/
def hasPref (pre f : String) : Bool :=
  decide (pre.data <+: f.data)

/-- If two character lists disagree within their common length, neither
extension of the second can begin with the first. -/
theorem not_pref_of_take_ne (p q x : List Char)
    (h : p.take (min p.length q.length) ≠ q.take (min p.length q.length)) :
    ¬ p <+: (q ++ x) := by
  rintro ⟨t, ht⟩
  apply h
  have h2 := congrArg (List.take (min p.length q.length)) ht
  rwa [List.take_append_eq_append_take, List.take_append_eq_append_take,
    Nat.sub_eq_zero_of_le (Nat.min_le_left _ _),
    Nat.sub_eq_zero_of_le (Nat.min_le_right _ _),
    List.take_zero, List.take_zero, List.append_nil, List.append_nil] at h2

/-- A macro flag built from `name` never begins with a marker that disagrees
with "-D" ++ name ++ "=" within the common length, whatever the value is. -/
theorem hasPref_flag_false (pre name : String)
    (h : pre.data.take (min pre.data.length ("-D" ++ name ++ "=").data.length) ≠
      ("-D" ++ name ++ "=").data.take
        (min pre.data.length ("-D" ++ name ++ "=").data.length))
    (v : String) : hasPref pre (getMacroFlag name v) = false := by
  apply decide_eq_false
  have hd : (getMacroFlag name v).data = ("-D" ++ name ++ "=").data ++ v.data := by
    simp [getMacroFlag, String.data_append]
  rw [hd]
  exact not_pref_of_take_ne _ _ _ h

/-- Every string beginning with `pre` is recognised by hasPref. -/
theorem hasPref_self_append (pre v : String) : hasPref pre (pre ++ v) = true := by
  apply decide_eq_true
  exact ⟨v.data, (String.data_append pre v).symm⟩

/-- Appending anything to a nonempty string stays nonempty. -/
theorem append_ne_empty (s t : String) (hs : s ≠ "") : s ++ t ≠ "" := by
  intro h
  apply hs
  have hd := congrArg String.data h
  rw [String.data_append] at hd
  rcases List.append_eq_nil.mp hd with ⟨h1, _⟩
  exact String.ext h1

/-- On success getMacroFlagsCore returns exactly the assembled macro set. -/
theorem getMacroFlagsCore_ok_eq (ctx : tllmXqaJitContext) (ms : List (String × String))
    (h : getMacroFlagsCore ctx = .ok ms) : ms = macroList ctx := by
  unfold getMacroFlagsCore cacheStage at h
  repeat' split at h
  all_goals first | exact (MacroFlagsResult.ok.inj h).symm | simp_all

/-- C6: the final-architecture flag is -arch=sm_90a for 90, -arch=sm_120a for
120, -arch=sm_121a for 121, and -arch=sm_N (no suffix letter) for every other
architecture number N. -/
theorem claim_C6_sm_flag :
    getSMFlag 90 = "-arch=sm_90a" ∧
    getSMFlag 120 = "-arch=sm_120a" ∧
    getSMFlag 121 = "-arch=sm_121a" ∧
    ∀ N : Int, N ≠ 90 → N ≠ 120 → N ≠ 121 → getSMFlag N = "-arch=sm_" ++ toString N := by
  refine ⟨by decide, by decide, by decide, ?_⟩
  intro N h1 h2 h3
  simp [getSMFlag, h1, h2, h3]

/-- Witness for C6 at the concrete architecture number 80. -/
theorem claim_C6_sm_flag_witness : getSMFlag 80 = "-arch=sm_80" :=
  claim_C6_sm_flag.2.2.2 80 (by decide) (by decide) (by decide)

/-- C7: the PTX-stage architecture flag is -arch=compute_89 for 120 and 121,
-arch=compute_90a for 90, and -arch=compute_N for every other N. -/
theorem claim_C7_ptx_sm_flag :
    getPTXSMFlag 120 = "-arch=compute_89" ∧
    getPTXSMFlag 121 = "-arch=compute_89" ∧
    getPTXSMFlag 90 = "-arch=compute_90a" ∧
    ∀ N : Int, N ≠ 90 → N ≠ 120 → N ≠ 121 →
      getPTXSMFlag N = "-arch=compute_" ++ toString N := by
  refine ⟨by decide, by decide, by decide, ?_⟩
  intro N h1 h2 h3
  simp [getPTXSMFlag, h1, h2, h3]

/-- Witness for C7 at the concrete architecture number 86. -/
theorem claim_C7_ptx_sm_flag_witness : getPTXSMFlag 86 = "-arch=compute_86" :=
  claim_C7_ptx_sm_flag.2.2.2 86 (by decide) (by decide) (by decide)

/-- Standard example configuration (spec section 8) used as a witness base. -/
def ctxStd : tllmXqaJitContext :=
  { head_size := 128, num_q_heads := 32, num_kv_heads := 4, beam_width := 1,
    q_seq_len := 1, multi_query_tokens := false, paged_kv_cache := false,
    tokens_per_block := 64, data_type := .DATA_TYPE_FP16,
    kv_cache_data_type := .DATA_TYPE_FP16, sm := 90,
    kernel_type := .TLLM_XQA_JIT_HMMA, fp8_output := false,
    use_input_kv := false, rope_style := 0 }

/-- Multi-query configuration sitting exactly on the M-tile boundary:
q_seq_len * HEAD_GRP_SIZE = 16 * 1 = 16. -/
def ctxC2W : tllmXqaJitContext :=
  { ctxStd with
    num_q_heads := 8,
    num_kv_heads := 8,
    q_seq_len := 16,
    multi_query_tokens := true,
    sm := 80 }

/-- C2: for every configuration accepted by macro translation the M_TILESIZE
macro value is m_tilesize; with multi-query-token mode off it equals
HEAD_GRP_SIZE = num_q_heads / num_kv_heads for any kernel type; with the
mode on it is 64 for the QGMMA kernel regardless of q_seq_len, and otherwise
16 when the uint32 product q_seq_len * HEAD_GRP_SIZE is below 16 and 32 once
the product reaches 16. -/
theorem claim_C2_m_tilesize (ctx : tllmXqaJitContext) (ms : List (String × String))
    (h : getMacroFlagsCore ctx = .ok ms) :
    ("M_TILESIZE", toString (m_tilesize ctx)) ∈ ms ∧
    (ctx.multi_query_tokens = false →
      m_tilesize ctx = ctx.num_q_heads / ctx.num_kv_heads) ∧
    (ctx.multi_query_tokens = true → ctx.kernel_type = .TLLM_XQA_JIT_QGMMA →
      m_tilesize ctx = 64) ∧
    (ctx.multi_query_tokens = true → ctx.kernel_type ≠ .TLLM_XQA_JIT_QGMMA →
      ((ctx.q_seq_len * (ctx.num_q_heads / ctx.num_kv_heads)) % 2 ^ 32 < 16 →
        m_tilesize ctx = 16) ∧
      (16 ≤ (ctx.q_seq_len * (ctx.num_q_heads / ctx.num_kv_heads)) % 2 ^ 32 →
        m_tilesize ctx = 32)) := by
  refine ⟨?_, ?_, ?_, ?_⟩
  · rw [getMacroFlagsCore_ok_eq ctx ms h]
    simp [macroList]
  · intro hmq
    simp [m_tilesize, hmq]
  · intro hmq hk
    simp [m_tilesize, hmq, hk]
  · intro hmq hk
    have hm : m_tilesize ctx
        = if (ctx.q_seq_len * (ctx.num_q_heads / ctx.num_kv_heads)) % 2 ^ 32 < 16
          then 16 else 32 := by
      unfold m_tilesize
      rw [hmq, if_neg (by simp), if_neg hk]
    exact ⟨fun hlt => by rw [hm, if_pos hlt], fun hge => by rw [hm, if_neg (by omega)]⟩

/-- Witness for C2: the boundary configuration ctxC2W (product exactly 16)
gets M_TILESIZE 32. -/
theorem claim_C2_m_tilesize_witness : m_tilesize ctxC2W = 32 :=
  ((claim_C2_m_tilesize ctxC2W (macroList ctxC2W) (by decide)).2.2.2
    (by decide) (by decide)).2 (by decide)

/-- Configuration violating the head-count divisibility constraint. -/
def ctxC3W : tllmXqaJitContext := { ctxStd with num_q_heads := 33 }

/-- C3: whenever num_q_heads is not a multiple of num_kv_heads, macro
translation fails with TLLM_XQA_JIT_INVALID_INPUT carrying no flags, and
the error string afterwards is exactly the constructed message, which is
nonempty and contains both the num_q_heads and the num_kv_heads value. -/
theorem claim_C3_heads_divisibility (ctx : tllmXqaJitContext) (gErr : String)
    (h : ctx.num_q_heads % ctx.num_kv_heads ≠ 0) :
    getMacroFlags ctx gErr =
      (.fail .TLLM_XQA_JIT_INVALID_INPUT (headsErrMsg ctx), headsErrMsg ctx) ∧
    headsErrMsg ctx ≠ "" ∧
    (∃ a b : String, headsErrMsg ctx = a ++ (toString ctx.num_q_heads ++ b)) ∧
    (∃ c d : String, headsErrMsg ctx = c ++ (toString ctx.num_kv_heads ++ d)) := by
  refine ⟨?_, ?_, ?_, ?_⟩
  · simp [getMacroFlags, getMacroFlagsCore, h]
  · show ("num_q_heads (" ++ toString ctx.num_q_heads ++ ") must be multiples of num_kv_heads ("
      ++ toString ctx.num_kv_heads ++ ").") ≠ ""
    exact append_ne_empty _ _ (append_ne_empty _ _ (append_ne_empty _ _
      (append_ne_empty _ _ (by decide))))
  · refine ⟨"num_q_heads (",
      ") must be multiples of num_kv_heads (" ++ toString ctx.num_kv_heads ++ ").", ?_⟩
    simp [headsErrMsg, String.append_assoc]
  · refine ⟨"num_q_heads (" ++ toString ctx.num_q_heads ++ ") must be multiples of num_kv_heads (",
      ").", ?_⟩
    simp [headsErrMsg, String.append_assoc]

/-- Witness for C3 at ctxC3W (33 query heads over 4 kv heads). -/
theorem claim_C3_heads_divisibility_witness :
    getMacroFlags ctxC3W "previous error" =
      (.fail .TLLM_XQA_JIT_INVALID_INPUT (headsErrMsg ctxC3W), headsErrMsg ctxC3W) ∧
    headsErrMsg ctxC3W ≠ "" :=
  ⟨(claim_C3_heads_divisibility ctxC3W "previous error" (by decide)).1,
   (claim_C3_heads_divisibility ctxC3W "previous error" (by decide)).2.1⟩

/-- The data-type / kv-cache-type pairings accepted by getMacroFlags
(nvrtcWrapper.cpp lines 147-167 and 174-201): the data type must be FP16 or
BF16, or E4M3 with the MLA kernel (otherwise the TLLM_CHECK assertion
aborts); the kv cache type must be INT8 or E4M3, or satisfy the final else
branch (FP16 data pairs with FP16 cache, any other data type needs a BF16
cache). -/
def validTypePairing (ctx : tllmXqaJitContext) : Prop :=
  (ctx.data_type = .DATA_TYPE_FP16 ∨ ctx.data_type = .DATA_TYPE_BF16 ∨
    (ctx.data_type = .DATA_TYPE_E4M3 ∧ ctx.kernel_type = .TLLM_XQA_JIT_MLA)) ∧
  (ctx.kv_cache_data_type = .DATA_TYPE_INT8 ∨ ctx.kv_cache_data_type = .DATA_TYPE_E4M3 ∨
    (ctx.data_type = .DATA_TYPE_FP16 ∧ ctx.kv_cache_data_type = .DATA_TYPE_FP16) ∨
    (ctx.data_type ≠ .DATA_TYPE_FP16 ∧ ctx.kv_cache_data_type = .DATA_TYPE_BF16))

/-- Divisible head counts plus a valid type pairing make getMacroFlags
succeed with the assembled macro set. -/
theorem core_ok_of_valid (ctx : tllmXqaJitContext)
    (h0 : ctx.num_q_heads % ctx.num_kv_heads = 0) (h1 : validTypePairing ctx) :
    getMacroFlagsCore ctx = .ok (macroList ctx) := by
  obtain ⟨hd, hc⟩ := h1
  unfold getMacroFlagsCore cacheStage
  rw [if_neg (by simp [h0])]
  rcases hd with hfp | hbf | ⟨he, hk⟩ <;>
    [rw [hfp]; rw [hbf]; rw [he, if_pos hk]] <;>
    rcases hc with h | h | ⟨hdt, h⟩ | ⟨hdt, h⟩ <;>
    simp_all

/-- getMacroFlag applied to HEAD_GRP_SIZE, written with the assembled
literal marker. -/
theorem hgs_flag_eq (v : String) :
    getMacroFlag "HEAD_GRP_SIZE" v = "-DHEAD_GRP_SIZE=" ++ v :=
  congrArg (fun s => s ++ v) (by decide)

/-- HEAD_GRP_SIZE flags are recognised by the -DHEAD_GRP_SIZE= marker. -/
theorem hasPref_hgs (v : String) :
    hasPref "-DHEAD_GRP_SIZE=" (getMacroFlag "HEAD_GRP_SIZE" v) = true := by
  rw [hgs_flag_eq]
  exact hasPref_self_append _ _

/-- Among all flags the translator can emit, exactly the HEAD_GRP_SIZE flag
matches the -DHEAD_GRP_SIZE= marker. -/
theorem filter_hgs (ctx : tllmXqaJitContext) :
    (macroFlags (macroList ctx)).filter (hasPref "-DHEAD_GRP_SIZE=")
      = ["-DHEAD_GRP_SIZE=" ++ toString (ctx.num_q_heads / ctx.num_kv_heads)] := by
  unfold macroFlags macroList
  rw [List.map_append, List.map_append, List.filter_append, List.filter_append]
  have hspec : ((specDecMacros ctx).map fun p => getMacroFlag p.1 p.2).filter
      (hasPref "-DHEAD_GRP_SIZE=") = [] := by
    unfold specDecMacros
    split
    · simp [List.filter_cons, hasPref_flag_false "-DHEAD_GRP_SIZE=" "SPEC_DEC" (by decide)]
    · simp
  have hdt : ((dtypeMacros ctx).map fun p => getMacroFlag p.1 p.2).filter
      (hasPref "-DHEAD_GRP_SIZE=") = [] := by
    unfold dtypeMacros
    split <;>
      simp [List.filter_cons,
        hasPref_flag_false "-DHEAD_GRP_SIZE=" "INPUT_FP16" (by decide),
        hasPref_flag_false "-DHEAD_GRP_SIZE=" "DTYPE" (by decide)]
  rw [hspec, hdt]
  simp only [List.nil_append, List.map_cons, List.map_nil, List.filter_cons,
    hasPref_flag_false "-DHEAD_GRP_SIZE=" "GENERATE_CUBIN" (by decide),
    hasPref_flag_false "-DHEAD_GRP_SIZE=" "NDEBUG" (by decide),
    hasPref_flag_false "-DHEAD_GRP_SIZE=" "HEAD_ELEMS" (by decide),
    hasPref_flag_false "-DHEAD_GRP_SIZE=" "BEAM_WIDTH" (by decide),
    hasPref_flag_false "-DHEAD_GRP_SIZE=" "CACHE_ELEM_ENUM" (by decide),
    hasPref_flag_false "-DHEAD_GRP_SIZE=" "TOKENS_PER_PAGE" (by decide),
    hasPref_flag_false "-DHEAD_GRP_SIZE=" "M_TILESIZE" (by decide),
    hasPref_flag_false "-DHEAD_GRP_SIZE=" "USE_CUSTOM_BARRIER" (by decide),
    hasPref_flag_false "-DHEAD_GRP_SIZE=" "SLIDING_WINDOW" (by decide),
    hasPref_flag_false "-DHEAD_GRP_SIZE=" "LOW_PREC_OUTPUT" (by decide),
    hasPref_flag_false "-DHEAD_GRP_SIZE=" "USE_INPUT_KV" (by decide),
    hasPref_flag_false "-DHEAD_GRP_SIZE=" "ROPE_STYLE" (by decide),
    hasPref_flag_false "-DHEAD_GRP_SIZE="
      "__FORCE_INCLUDE_CUDA_FP16_HPP_FROM_FP16_H__" (by decide),
    hasPref_flag_false "-DHEAD_GRP_SIZE="
      "__FORCE_INCLUDE_CUDA_BF16_HPP_FROM_BF16_H__" (by decide),
    hasPref_hgs, List.filter_nil]
  simp [hgs_flag_eq]

/-- C4: every configuration with divisible head counts and a valid
data-type / cache-type pairing makes macro translation succeed, leaving the
error string untouched, and the produced flag list contains exactly one
flag of the form -DHEAD_GRP_SIZE=v, with v = num_q_heads / num_kv_heads. -/
theorem claim_C4_head_grp_size (ctx : tllmXqaJitContext) (gErr : String)
    (h0 : ctx.num_q_heads % ctx.num_kv_heads = 0) (h1 : validTypePairing ctx) :
    getMacroFlags ctx gErr = (.ok (macroList ctx), gErr) ∧
    (macroFlags (macroList ctx)).filter (hasPref "-DHEAD_GRP_SIZE=")
      = ["-DHEAD_GRP_SIZE=" ++ toString (ctx.num_q_heads / ctx.num_kv_heads)] := by
  constructor
  · rw [getMacroFlags, core_ok_of_valid ctx h0 h1]
  · exact filter_hgs ctx

/-- Witness for C4 at the spec example configuration (32 query heads over 4
kv heads: quotient 8). -/
theorem claim_C4_head_grp_size_witness :
    getMacroFlags ctxStd "" = (.ok (macroList ctxStd), "") ∧
    (macroFlags (macroList ctxStd)).filter (hasPref "-DHEAD_GRP_SIZE=")
      = ["-DHEAD_GRP_SIZE=" ++ toString (8 : Nat)] :=
  claim_C4_head_grp_size ctxStd "" (by decide) (by unfold validTypePairing; decide)

/-- MLA configuration with 8-bit-float data type and a bfloat16 kv cache:
the cache type matches neither special case nor the primary type. -/
def ctxC5 : tllmXqaJitContext :=
  { ctxStd with
    data_type := .DATA_TYPE_E4M3,
    kv_cache_data_type := .DATA_TYPE_BF16,
    kernel_type := .TLLM_XQA_JIT_MLA,
    num_q_heads := 128,
    num_kv_heads := 128,
    head_size := 576 }

/-- C5 counterexample: at ctxC5 the kv cache type is neither 8-bit int nor
8-bit float and does not match the primary data type (E4M3), yet macro
translation succeeds with CACHE_ELEM_ENUM = 0 instead of failing with
InvalidInput: the final else branch of the source only requires a BF16
cache for every non-FP16 primary type, not an exact match. -/
theorem claim_C5_counterexample :
    ctxC5.kv_cache_data_type ≠ .DATA_TYPE_INT8 ∧
    ctxC5.kv_cache_data_type ≠ .DATA_TYPE_E4M3 ∧
    ctxC5.kv_cache_data_type ≠ ctxC5.data_type ∧
    getMacroFlags ctxC5 "" = (.ok (macroList ctxC5), "") ∧
    ("CACHE_ELEM_ENUM", "0") ∈ macroList ctxC5 := by
  refine ⟨by decide, by decide, by decide, by decide, by decide⟩

/-- C5 (amended): CACHE_ELEM_ENUM is 1 for an 8-bit-int cache and 2 for an
8-bit-float cache; otherwise, when the primary data type is half the cache
type must also be half, and for every other primary data type (bfloat16, or
8-bit float with the MLA kernel) the cache type must be bfloat16; the
accepted pairings set CACHE_ELEM_ENUM = 0 and the rejected ones fail with
TLLM_XQA_JIT_INVALID_INPUT. -/
theorem claim_C5_cache_elem_enum (ctx : tllmXqaJitContext) (gErr : String)
    (h0 : ctx.num_q_heads % ctx.num_kv_heads = 0)
    (hdt : ctx.data_type = .DATA_TYPE_FP16 ∨ ctx.data_type = .DATA_TYPE_BF16 ∨
      (ctx.data_type = .DATA_TYPE_E4M3 ∧ ctx.kernel_type = .TLLM_XQA_JIT_MLA)) :
    (ctx.kv_cache_data_type = .DATA_TYPE_INT8 →
      getMacroFlags ctx gErr = (.ok (macroList ctx), gErr) ∧
      ("CACHE_ELEM_ENUM", "1") ∈ macroList ctx) ∧
    (ctx.kv_cache_data_type = .DATA_TYPE_E4M3 →
      getMacroFlags ctx gErr = (.ok (macroList ctx), gErr) ∧
      ("CACHE_ELEM_ENUM", "2") ∈ macroList ctx) ∧
    (ctx.kv_cache_data_type ≠ .DATA_TYPE_INT8 →
     ctx.kv_cache_data_type ≠ .DATA_TYPE_E4M3 →
      (ctx.data_type = .DATA_TYPE_FP16 →
        (ctx.kv_cache_data_type = .DATA_TYPE_FP16 →
          getMacroFlags ctx gErr = (.ok (macroList ctx), gErr) ∧
          ("CACHE_ELEM_ENUM", "0") ∈ macroList ctx) ∧
        (ctx.kv_cache_data_type ≠ .DATA_TYPE_FP16 →
          getMacroFlags ctx gErr =
            (.fail .TLLM_XQA_JIT_INVALID_INPUT kvFp16ErrMsg, kvFp16ErrMsg))) ∧
      (ctx.data_type ≠ .DATA_TYPE_FP16 →
        (ctx.kv_cache_data_type = .DATA_TYPE_BF16 →
          getMacroFlags ctx gErr = (.ok (macroList ctx), gErr) ∧
          ("CACHE_ELEM_ENUM", "0") ∈ macroList ctx) ∧
        (ctx.kv_cache_data_type ≠ .DATA_TYPE_BF16 →
          getMacroFlags ctx gErr =
            (.fail .TLLM_XQA_JIT_INVALID_INPUT kvBf16ErrMsg, kvBf16ErrMsg)))) := by
  have hofv : validTypePairing ctx → getMacroFlags ctx gErr = (.ok (macroList ctx), gErr) := by
    intro hv
    rw [getMacroFlags, core_ok_of_valid ctx h0 hv]
  have hmem : ∀ s : String, cacheElemEnumVal ctx = s → ("CACHE_ELEM_ENUM", s) ∈ macroList ctx := by
    intro s hs
    rw [← hs]
    simp [macroList]
  refine ⟨?_, ?_, ?_⟩
  · intro hkv
    exact ⟨hofv ⟨hdt, Or.inl hkv⟩, hmem "1" (by simp [cacheElemEnumVal, hkv])⟩
  · intro hkv
    exact ⟨hofv ⟨hdt, Or.inr (Or.inl hkv)⟩, hmem "2" (by simp [cacheElemEnumVal, hkv])⟩
  · intro hni hne
    constructor
    · intro hfp
      constructor
      · intro hkvf
        exact ⟨hofv ⟨hdt, Or.inr (Or.inr (Or.inl ⟨hfp, hkvf⟩))⟩,
          hmem "0" (by simp [cacheElemEnumVal, hkvf])⟩
      · intro hkvnf
        have hcore : getMacroFlagsCore ctx = .fail .TLLM_XQA_JIT_INVALID_INPUT kvFp16ErrMsg := by
          simp [getMacroFlagsCore, cacheStage, h0, hfp, hni, hne, hkvnf]
        rw [getMacroFlags, hcore]
    · intro hnfp
      constructor
      · intro hkvb
        exact ⟨hofv ⟨hdt, Or.inr (Or.inr (Or.inr ⟨hnfp, hkvb⟩))⟩,
          hmem "0" (by simp [cacheElemEnumVal, hkvb])⟩
      · intro hkvnb
        have hcore : getMacroFlagsCore ctx = .fail .TLLM_XQA_JIT_INVALID_INPUT kvBf16ErrMsg := by
          rcases hdt with hfp | hbf | ⟨he, hk⟩
          · exact absurd hfp hnfp
          · simp [getMacroFlagsCore, cacheStage, h0, hbf, hni, hne, hkvnb]
          · simp [getMacroFlagsCore, cacheStage, h0, he, hk, hni, hne, hkvnb]
        rw [getMacroFlags, hcore]

/-- Half-precision configuration with an 8-bit-int kv cache. -/
def ctxC5W : tllmXqaJitContext := { ctxStd with kv_cache_data_type := .DATA_TYPE_INT8 }

/-- Witness for the amended C5 at ctxC5W: an INT8 cache yields
CACHE_ELEM_ENUM = 1. -/
theorem claim_C5_cache_elem_enum_witness :
    getMacroFlags ctxC5W "" = (.ok (macroList ctxC5W), "") ∧
    ("CACHE_ELEM_ENUM", "1") ∈ macroList ctxC5W :=
  (claim_C5_cache_elem_enum ctxC5W "" (by decide) (Or.inl (by decide))).1 (by decide)

/-- C10: an 8-bit-float (E4M3) MLA configuration that passes the head-count
and cache-type checks translates successfully, yet its flag list contains no
DTYPE flag and no INPUT_FP16 flag; every successful half-precision or
bfloat16 translation contains both. -/
theorem claim_C10_mla_no_dtype (ctx : tllmXqaJitContext) (gErr : String)
    (h0 : ctx.num_q_heads % ctx.num_kv_heads = 0)
    (hd : ctx.data_type = .DATA_TYPE_E4M3)
    (hk : ctx.kernel_type = .TLLM_XQA_JIT_MLA)
    (hkv : ctx.kv_cache_data_type = .DATA_TYPE_INT8 ∨
      ctx.kv_cache_data_type = .DATA_TYPE_E4M3 ∨
      ctx.kv_cache_data_type = .DATA_TYPE_BF16) :
    getMacroFlags ctx gErr = (.ok (macroList ctx), gErr) ∧
    (macroFlags (macroList ctx)).filter (hasPref "-DDTYPE=") = [] ∧
    (macroFlags (macroList ctx)).filter (hasPref "-DINPUT_FP16=") = [] ∧
    (∀ (ctx2 : tllmXqaJitContext) (ms : List (String × String)),
      getMacroFlagsCore ctx2 = .ok ms →
      (ctx2.data_type = .DATA_TYPE_FP16 →
        getMacroFlag "INPUT_FP16" "1" ∈ macroFlags ms ∧
        getMacroFlag "DTYPE" "__half" ∈ macroFlags ms) ∧
      (ctx2.data_type = .DATA_TYPE_BF16 →
        getMacroFlag "INPUT_FP16" "0" ∈ macroFlags ms ∧
        getMacroFlag "DTYPE" "__nv_bfloat16" ∈ macroFlags ms)) := by
  refine ⟨?_, ?_, ?_, ?_⟩
  · apply (fun hv => by rw [getMacroFlags, core_ok_of_valid ctx h0 hv] :
      validTypePairing ctx → _)
    refine ⟨Or.inr (Or.inr ⟨hd, hk⟩), ?_⟩
    rcases hkv with h | h | h
    · exact Or.inl h
    · exact Or.inr (Or.inl h)
    · exact Or.inr (Or.inr (Or.inr ⟨by simp [hd], h⟩))
  · unfold macroFlags macroList
    rw [List.map_append, List.map_append, List.filter_append, List.filter_append]
    have hspec : ((specDecMacros ctx).map fun p => getMacroFlag p.1 p.2).filter
        (hasPref "-DDTYPE=") = [] := by
      unfold specDecMacros
      split
      · simp [List.filter_cons, hasPref_flag_false "-DDTYPE=" "SPEC_DEC" (by decide)]
      · simp
    have hdt : ((dtypeMacros ctx).map fun p => getMacroFlag p.1 p.2).filter
        (hasPref "-DDTYPE=") = [] := by
      simp [dtypeMacros, hd]
    rw [hspec, hdt]
    simp only [List.nil_append, List.map_cons, List.map_nil, List.filter_cons,
      hasPref_flag_false "-DDTYPE=" "GENERATE_CUBIN" (by decide),
      hasPref_flag_false "-DDTYPE=" "NDEBUG" (by decide),
      hasPref_flag_false "-DDTYPE=" "HEAD_ELEMS" (by decide),
      hasPref_flag_false "-DDTYPE=" "BEAM_WIDTH" (by decide),
      hasPref_flag_false "-DDTYPE=" "CACHE_ELEM_ENUM" (by decide),
      hasPref_flag_false "-DDTYPE=" "TOKENS_PER_PAGE" (by decide),
      hasPref_flag_false "-DDTYPE=" "HEAD_GRP_SIZE" (by decide),
      hasPref_flag_false "-DDTYPE=" "M_TILESIZE" (by decide),
      hasPref_flag_false "-DDTYPE=" "USE_CUSTOM_BARRIER" (by decide),
      hasPref_flag_false "-DDTYPE=" "SLIDING_WINDOW" (by decide),
      hasPref_flag_false "-DDTYPE=" "LOW_PREC_OUTPUT" (by decide),
      hasPref_flag_false "-DDTYPE=" "USE_INPUT_KV" (by decide),
      hasPref_flag_false "-DDTYPE=" "ROPE_STYLE" (by decide),
      hasPref_flag_false "-DDTYPE="
        "__FORCE_INCLUDE_CUDA_FP16_HPP_FROM_FP16_H__" (by decide),
      hasPref_flag_false "-DDTYPE="
        "__FORCE_INCLUDE_CUDA_BF16_HPP_FROM_BF16_H__" (by decide),
      List.filter_nil]
    simp
  · unfold macroFlags macroList
    rw [List.map_append, List.map_append, List.filter_append, List.filter_append]
    have hspec : ((specDecMacros ctx).map fun p => getMacroFlag p.1 p.2).filter
        (hasPref "-DINPUT_FP16=") = [] := by
      unfold specDecMacros
      split
      · simp [List.filter_cons, hasPref_flag_false "-DINPUT_FP16=" "SPEC_DEC" (by decide)]
      · simp
    have hdt : ((dtypeMacros ctx).map fun p => getMacroFlag p.1 p.2).filter
        (hasPref "-DINPUT_FP16=") = [] := by
      simp [dtypeMacros, hd]
    rw [hspec, hdt]
    simp only [List.nil_append, List.map_cons, List.map_nil, List.filter_cons,
      hasPref_flag_false "-DINPUT_FP16=" "GENERATE_CUBIN" (by decide),
      hasPref_flag_false "-DINPUT_FP16=" "NDEBUG" (by decide),
      hasPref_flag_false "-DINPUT_FP16=" "HEAD_ELEMS" (by decide),
      hasPref_flag_false "-DINPUT_FP16=" "BEAM_WIDTH" (by decide),
      hasPref_flag_false "-DINPUT_FP16=" "CACHE_ELEM_ENUM" (by decide),
      hasPref_flag_false "-DINPUT_FP16=" "TOKENS_PER_PAGE" (by decide),
      hasPref_flag_false "-DINPUT_FP16=" "HEAD_GRP_SIZE" (by decide),
      hasPref_flag_false "-DINPUT_FP16=" "M_TILESIZE" (by decide),
      hasPref_flag_false "-DINPUT_FP16=" "USE_CUSTOM_BARRIER" (by decide),
      hasPref_flag_false "-DINPUT_FP16=" "SLIDING_WINDOW" (by decide),
      hasPref_flag_false "-DINPUT_FP16=" "LOW_PREC_OUTPUT" (by decide),
      hasPref_flag_false "-DINPUT_FP16=" "USE_INPUT_KV" (by decide),
      hasPref_flag_false "-DINPUT_FP16=" "ROPE_STYLE" (by decide),
      hasPref_flag_false "-DINPUT_FP16="
        "__FORCE_INCLUDE_CUDA_FP16_HPP_FROM_FP16_H__" (by decide),
      hasPref_flag_false "-DINPUT_FP16="
        "__FORCE_INCLUDE_CUDA_BF16_HPP_FROM_BF16_H__" (by decide),
      List.filter_nil]
    simp
  · intro ctx2 ms hok
    rw [getMacroFlagsCore_ok_eq ctx2 ms hok]
    constructor
    · intro hfp
      constructor <;> simp [macroFlags, macroList, dtypeMacros, hfp]
    · intro hbf
      constructor <;> simp [macroFlags, macroList, dtypeMacros, hbf]

/-- E4M3 MLA configuration with an E4M3 kv cache. -/
def ctxC10W : tllmXqaJitContext :=
  { ctxStd with
    data_type := .DATA_TYPE_E4M3,
    kv_cache_data_type := .DATA_TYPE_E4M3,
    kernel_type := .TLLM_XQA_JIT_MLA,
    num_q_heads := 64,
    num_kv_heads := 64,
    head_size := 576 }

/-- Witness for C10 at ctxC10W. -/
theorem claim_C10_mla_no_dtype_witness :
    getMacroFlags ctxC10W "" = (.ok (macroList ctxC10W), "") ∧
    (macroFlags (macroList ctxC10W)).filter (hasPref "-DDTYPE=") = [] :=
  ⟨(claim_C10_mla_no_dtype ctxC10W "" (by decide) (by decide) (by decide)
      (Or.inr (Or.inl (by decide)))).1,
   (claim_C10_mla_no_dtype ctxC10W "" (by decide) (by decide) (by decide)
      (Or.inr (Or.inl (by decide)))).2.1⟩

/-- The two-stage condition spelled out over the configuration fields. -/
theorem needsTwoStage_iff (ctx : tllmXqaJitContext) :
    needsTwoStageCompilation ctx = true ↔
      ((ctx.sm = 120 ∨ ctx.sm = 121) ∧ ctx.kernel_type = .TLLM_XQA_JIT_HMMA) := by
  simp [needsTwoStageCompilation]

/-- A successful compile on the two-stage path records a two-stage trace
whose second-stage option list is ptx_compile_options, and marks the stored
cubin authoritative. -/
theorem compileProgram_ok_twoStage (ctx : tllmXqaJitContext) (cub : List UInt8)
    (gErr : String) (p2 : _tllmXqaJitProgram) (tr : CompileTrace) (gErr2 : String)
    (h : needsTwoStageCompilation ctx = true)
    (hc : compileProgram cub (createProgram ctx) gErr = .ok p2 tr gErr2) :
    ∃ o1, tr = .twoStage o1 ptx_compile_options ∧ p2.use_stored_cubin = true := by
  simp only [compileProgram, createProgram] at hc
  rw [if_pos (by exact h)] at hc
  cases hb : getBuildOptionsPTX ctx with
  | ok opts =>
    simp only [hb] at hc
    obtain ⟨h1, h2, h3⟩ := CompileResult.ok.inj hc
    exact ⟨opts, h2.symm, by rw [← h1]⟩
  | fail st msg =>
    simp only [hb] at hc
    exact CompileResult.noConfusion hc
  | assertFail =>
    simp only [hb] at hc
    exact CompileResult.noConfusion hc

/-- A successful compile on the single-stage path records a single-stage
trace and leaves the program unit unchanged. -/
theorem compileProgram_ok_singleStage (ctx : tllmXqaJitContext) (cub : List UInt8)
    (gErr : String) (p2 : _tllmXqaJitProgram) (tr : CompileTrace) (gErr2 : String)
    (h : needsTwoStageCompilation ctx = false)
    (hc : compileProgram cub (createProgram ctx) gErr = .ok p2 tr gErr2) :
    (∃ o, tr = .singleStage o) ∧ p2 = createProgram ctx := by
  simp only [compileProgram, createProgram] at hc
  rw [if_neg (by simp [h])] at hc
  cases hb : getBuildOptions ctx with
  | ok opts =>
    simp only [hb] at hc
    obtain ⟨h1, h2, h3⟩ := CompileResult.ok.inj hc
    exact ⟨⟨opts, h2.symm⟩, by rw [← h1]; rfl⟩
  | fail st msg =>
    simp only [hb] at hc
    exact CompileResult.noConfusion hc
  | assertFail =>
    simp only [hb] at hc
    exact CompileResult.noConfusion hc

/-- C1: two-stage compilation runs exactly when the architecture is 120 or
121 and the kernel type is the standard (HMMA) variant; in every other
combination a successful compile is single-stage and leaves the unit's
use_stored_cubin flag false. -/
theorem claim_C1_two_stage_condition (ctx : tllmXqaJitContext) :
    (needsTwoStageCompilation ctx = true ↔
      ((ctx.sm = 120 ∨ ctx.sm = 121) ∧ ctx.kernel_type = .TLLM_XQA_JIT_HMMA)) ∧
    (∀ (cub : List UInt8) (gErr : String) (p2 : _tllmXqaJitProgram)
        (tr : CompileTrace) (gErr2 : String),
      compileProgram cub (createProgram ctx) gErr = .ok p2 tr gErr2 →
      (((ctx.sm = 120 ∨ ctx.sm = 121) ∧ ctx.kernel_type = .TLLM_XQA_JIT_HMMA) →
        ∃ o1, tr = .twoStage o1 ptx_compile_options) ∧
      (¬((ctx.sm = 120 ∨ ctx.sm = 121) ∧ ctx.kernel_type = .TLLM_XQA_JIT_HMMA) →
        (∃ o, tr = .singleStage o) ∧ p2.use_stored_cubin = false)) := by
  refine ⟨needsTwoStage_iff ctx, ?_⟩
  intro cub gErr p2 tr gErr2 hc
  constructor
  · intro hcond
    obtain ⟨o1, ho, _⟩ := compileProgram_ok_twoStage ctx cub gErr p2 tr gErr2
      ((needsTwoStage_iff ctx).mpr hcond) hc
    exact ⟨o1, ho⟩
  · intro hcond
    have hfalse : needsTwoStageCompilation ctx = false := by
      cases h : needsTwoStageCompilation ctx
      · rfl
      · exact absurd ((needsTwoStage_iff ctx).mp h) hcond
    obtain ⟨ho, hp⟩ := compileProgram_ok_singleStage ctx cub gErr p2 tr gErr2 hfalse hc
    exact ⟨ho, by rw [hp]; rfl⟩

/-- The single-stage option list produced for the spec example
configuration. -/
def stage1OptsStd : List String :=
  ["-dw", "--use_fast_math", "-default-device", getSMFlag 90] ++ macroFlags (macroList ctxStd)

/-- Witness for C1: the spec example configuration (sm 90, HMMA) compiles
single-stage with use_stored_cubin still false. -/
theorem claim_C1_two_stage_condition_witness :
    (∃ o, CompileTrace.singleStage stage1OptsStd = CompileTrace.singleStage o) ∧
    (createProgram ctxStd).use_stored_cubin = false :=
  ((claim_C1_two_stage_condition ctxStd).2 [] "" (createProgram ctxStd)
    (.singleStage stage1OptsStd) "" (by decide)).2 (by decide)

/-- C8: whenever two-stage compilation runs, the option list handed to the
second-stage PTX compiler is exactly the one fixed option
--gpu-name=sm_120f (also when the architecture number is 121). -/
theorem claim_C8_ptx_compiler_options (ctx : tllmXqaJitContext) (cub : List UInt8)
    (gErr : String) (p2 : _tllmXqaJitProgram) (tr : CompileTrace) (gErr2 : String)
    (h : needsTwoStageCompilation ctx = true)
    (hc : compileProgram cub (createProgram ctx) gErr = .ok p2 tr gErr2) :
    ptx_compile_options = ["--gpu-name=sm_120f"] ∧
    ∃ o1, tr = .twoStage o1 ["--gpu-name=sm_120f"] := by
  obtain ⟨o1, ho, _⟩ := compileProgram_ok_twoStage ctx cub gErr p2 tr gErr2 h hc
  exact ⟨rfl, o1, ho⟩

/-- Architecture 121 configuration on the standard kernel. -/
def ctxC8W : tllmXqaJitContext := { ctxStd with sm := 121 }

/-- The first-stage (PTX) option list produced for ctxC8W. -/
def stage1OptsC8 : List String :=
  ["-dw", "--use_fast_math", "-default-device", getPTXSMFlag 121] ++ macroFlags (macroList ctxC8W)

/-- The program unit after a successful two-stage compile of ctxC8W. -/
def progC8 : _tllmXqaJitProgram :=
  { context := ctxC8W, cubin_data := [], use_stored_cubin := true }

/-- Witness for C8 at architecture number 121. -/
theorem claim_C8_ptx_compiler_options_witness :
    ptx_compile_options = ["--gpu-name=sm_120f"] ∧
    ∃ o1, CompileTrace.twoStage stage1OptsC8 ptx_compile_options
      = CompileTrace.twoStage o1 ["--gpu-name=sm_120f"] :=
  claim_C8_ptx_compiler_options ctxC8W [] "" progC8
    (.twoStage stage1OptsC8 ptx_compile_options) "" (by decide) (by decide)

/-- The head-count error message is never empty. -/
theorem headsErrMsg_ne_empty (ctx : tllmXqaJitContext) : headsErrMsg ctx ≠ "" := by
  show ("num_q_heads (" ++ toString ctx.num_q_heads ++ ") must be multiples of num_kv_heads ("
      ++ toString ctx.num_kv_heads ++ ").") ≠ ""
  exact append_ne_empty _ _ (append_ne_empty _ _ (append_ne_empty _ _
    (append_ne_empty _ _ (by decide))))

/-- Every message a failing translation stores is nonempty. -/
theorem core_fail_msg_ne_empty (ctx : tllmXqaJitContext) (st : tllmXqaJitStatus)
    (m : String) (h : getMacroFlagsCore ctx = .fail st m) : m ≠ "" := by
  unfold getMacroFlagsCore cacheStage at h
  repeat' split at h
  all_goals try exact MacroFlagsResult.noConfusion h
  all_goals obtain ⟨h1, h2⟩ := MacroFlagsResult.fail.inj h
  all_goals rw [← h2]
  all_goals first
    | exact headsErrMsg_ne_empty ctx
    | decide

/-- A failing translation stores exactly its own message, regardless of the
previous contents of the error string. -/
theorem getMacroFlags_fail_state (ctx : tllmXqaJitContext) (g : String)
    (st : tllmXqaJitStatus) (m gA : String)
    (h : getMacroFlags ctx g = (.fail st m, gA)) :
    gA = m ∧ m ≠ "" ∧ ∀ g2 : String, getMacroFlags ctx g2 = (.fail st m, m) := by
  rw [getMacroFlags] at h
  cases hb : getMacroFlagsCore ctx with
  | ok ms =>
    simp only [hb] at h
    obtain ⟨h1, h2⟩ := Prod.mk.inj h
    exact MacroFlagsResult.noConfusion h1
  | fail st0 m0 =>
    simp only [hb] at h
    obtain ⟨h1, h2⟩ := Prod.mk.inj h
    obtain ⟨hst, hm⟩ := MacroFlagsResult.fail.inj h1
    refine ⟨by rw [← h2, hm], ?_, ?_⟩
    · exact core_fail_msg_ne_empty ctx st m (by rw [hb, hst, hm])
    · intro g2
      rw [getMacroFlags]
      simp only [hb]
      rw [hst, hm]
  | assertFail =>
    simp only [hb] at h
    obtain ⟨h1, h2⟩ := Prod.mk.inj h
    exact MacroFlagsResult.noConfusion h1

/-- A nonempty error string is copied, terminator included, into the front
of the caller buffer. -/
theorem errorString_copy_take (g : String) (buf : List Char) (hg : g ≠ "") :
    (tllmXqaJitGetLastErrorString g buf).take (g.length + 1) = g.data ++ [Char.ofNat 0] := by
  rw [tllmXqaJitGetLastErrorString, if_neg (by simp [String.isEmpty_iff]; exact hg)]
  rw [List.take_append_eq_append_take]
  have h1 : (g.data ++ [Char.ofNat 0]).length = g.length + 1 := by
    simp [List.length_append, String.length_data]
  rw [List.take_of_length_le (le_of_eq h1), h1, Nat.sub_self, List.take_zero, List.append_nil]

/-- C9: the error string starts empty; the size accessor returns length + 1;
the content accessor is a no-op on an empty string and otherwise copies the
string with its terminator into the caller buffer; a failing translation
overwrites the string with its own message independently of the previous
state, so after two consecutive failing calls exactly the second message is
retrievable. -/
theorem claim_C9_error_string :
    gErrorStringInit = "" ∧
    (∀ g : String, tllmXqaJitGetLastErrorStringSize g = g.length + 1) ∧
    (∀ buf : List Char, tllmXqaJitGetLastErrorString "" buf = buf) ∧
    (∀ (g : String) (buf : List Char), g ≠ "" →
      (tllmXqaJitGetLastErrorString g buf).take (g.length + 1)
        = g.data ++ [Char.ofNat 0]) ∧
    (∀ (ctx : tllmXqaJitContext) (g : String) (st : tllmXqaJitStatus) (m gA : String),
      getMacroFlags ctx g = (.fail st m, gA) →
      gA = m ∧ m ≠ "" ∧ ∀ g2 : String, getMacroFlags ctx g2 = (.fail st m, m)) ∧
    (∀ (ctx1 ctx2 : tllmXqaJitContext) (g0 : String) (st1 st2 : tllmXqaJitStatus)
        (m1 m2 : String),
      getMacroFlags ctx1 g0 = (.fail st1 m1, m1) →
      getMacroFlags ctx2 m1 = (.fail st2 m2, m2) →
      ∀ buf : List Char,
        (tllmXqaJitGetLastErrorString m2 buf).take (tllmXqaJitGetLastErrorStringSize m2)
          = m2.data ++ [Char.ofNat 0]) := by
  refine ⟨rfl, fun g => rfl, ?_, ?_, ?_, ?_⟩
  · intro buf
    rw [tllmXqaJitGetLastErrorString, if_pos (by decide)]
  · intro g buf hg
    exact errorString_copy_take g buf hg
  · intro ctx g st m gA h
    exact getMacroFlags_fail_state ctx g st m gA h
  · intro ctx1 ctx2 g0 st1 st2 m1 m2 h1 h2 buf
    have hne : m2 ≠ "" := (getMacroFlags_fail_state ctx2 m1 st2 m2 m2 h2).2.1
    exact errorString_copy_take m2 buf hne

/-- Second configuration violating the divisibility constraint, for the
double-failure witness. -/
def ctxC9B : tllmXqaJitContext := { ctxStd with num_q_heads := 7 }

/-- Witness for C9: concrete instantiations of the size accessor, the copy
accessor, and the two-consecutive-failures conjunct. -/
theorem claim_C9_error_string_witness :
    tllmXqaJitGetLastErrorStringSize "abc" = "abc".length + 1 ∧
    (tllmXqaJitGetLastErrorString "abc" (List.replicate 8 ' ')).take ("abc".length + 1)
      = "abc".data ++ [Char.ofNat 0] ∧
    (tllmXqaJitGetLastErrorString (headsErrMsg ctxC9B) (List.replicate 80 ' ')).take
        (tllmXqaJitGetLastErrorStringSize (headsErrMsg ctxC9B))
      = (headsErrMsg ctxC9B).data ++ [Char.ofNat 0] :=
  ⟨claim_C9_error_string.2.1 "abc",
   claim_C9_error_string.2.2.2.1 "abc" (List.replicate 8 ' ') (by decide),
   claim_C9_error_string.2.2.2.2.2 ctxC3W ctxC9B "" .TLLM_XQA_JIT_INVALID_INPUT
     .TLLM_XQA_JIT_INVALID_INPUT (headsErrMsg ctxC3W) (headsErrMsg ctxC9B)
     (by decide) (by decide) (List.replicate 80 ' ')⟩
